import Mathlib

/-!
Shallow embedding of `aioaseko/mobile.py` (class `MobileAccount`) and the
`Unit` record it produces.  The async HTTP client is modelled as pure
state-passing functions: every operation takes an environment (current time,
unverified-JWT decoder, HTTP transport) together with the account state and
returns the new account state, the ordered list of HTTP requests it issued,
and either a result or the Python exception that propagated.
-/

namespace Aseko

/-- Minimal JSON value model, enough for the bodies exchanged with the API. -/
inductive Json where
  | str : String → Json
  | num : Int → Json
  | bool : Bool → Json
  | null : Json
  | arr : List Json → Json
  | obj : List (String × Json) → Json

/-- The Python exceptions that can escape the client's methods.
`invalidAuthCredentials` and `apiUnavailable` are the library's own error
classes; the others are the builtin / aiohttp exceptions the code lets
propagate (`clientError` is an `aiohttp.ClientError` raised while issuing the
request, `decodeError` a `jwt` decoding failure, `keyError` a missing
dictionary key, `valueError` a failed `int(...)` coercion, `typeError` a
value of an unexpected shape). -/
inductive PyExc where
  | invalidAuthCredentials : PyExc
  | apiUnavailable : PyExc
  | clientError : String → PyExc
  | decodeError : String → PyExc
  | keyError : String → PyExc
  | valueError : PyExc
  | typeError : PyExc
deriving DecidableEq, Repr

/-- Dictionary lookup `d[k]`: raises `KeyError` when the key is missing or
the value is not an object. -/
def jsonLookup (j : Json) (k : String) : Except PyExc Json :=
  match j with
  | Json.obj fields =>
    match fields.lookup k with
    | some v => Except.ok v
    | none => Except.error (PyExc.keyError k)
  | _ => Except.error (PyExc.keyError k)

/-- Dictionary access `d.get(k)`: `None` when the key is absent (a JSON
`null` value also deserialises to Python `None`). -/
def jsonGet (j : Json) (k : String) : Option Json :=
  match j with
  | Json.obj fields =>
    match fields.lookup k with
    | some Json.null => none
    | some v => some v
    | none => none
  | _ => none

/-- Accumulate the value of a decimal digit string; `none` on any
non-digit character. -/
def parseDigitsAux : List Char → Nat → Option Nat
  | [], acc => some acc
  | c :: cs, acc =>
    if c.isDigit then parseDigitsAux cs (acc * 10 + (c.toNat - 48))
    else none

/-- Decimal integer parse of a string, as Python `int(str)` reads a plain
(optionally minus-signed) decimal literal; `none` when the string is not
such a literal. -/
def pyIntOfString (s : String) : Option Int :=
  match s.data with
  | [] => none
  | c :: cs =>
    if c = '-' then
      match cs with
      | [] => none
      | _ => (parseDigitsAux cs 0).map (fun n => -(n : Int))
    else (parseDigitsAux (c :: cs) 0).map (fun n => (n : Int))

/-- Python `int(x)` on a JSON value: integers pass through, strings are
parsed as decimal integers (`ValueError` on failure), booleans become 0/1,
anything else is a `TypeError`. -/
def pyInt : Json → Except PyExc Int
  | Json.num n => Except.ok n
  | Json.str s =>
    match pyIntOfString s with
    | some n => Except.ok n
    | none => Except.error PyExc.valueError
  | Json.bool b => Except.ok (if b then 1 else 0)
  | _ => Except.error PyExc.typeError

/-- Expect a JSON string (the embedding types token and text fields as
strings, which is the shape the API returns for them). -/
def asStr : Json → Except PyExc String
  | Json.str s => Except.ok s
  | _ => Except.error PyExc.typeError

/-- Optional string field read with `.get`: absent (or JSON null) yields
`none`. -/
def getOptStr (j : Json) (k : String) : Except PyExc (Option String) :=
  match jsonGet j k with
  | none => Except.ok none
  | some (Json.str s) => Except.ok (some s)
  | some _ => Except.error PyExc.typeError

/-- A string field read with `d[k]` followed by use as a string. -/
def getStrField (j : Json) (k : String) : Except PyExc String :=
  match jsonLookup j k with
  | Except.error e => Except.error e
  | Except.ok v => asStr v

/-- A boolean field read with `d[k]`. -/
def getBoolField (j : Json) (k : String) : Except PyExc Bool :=
  match jsonLookup j k with
  | Except.error e => Except.error e
  | Except.ok (Json.bool b) => Except.ok b
  | Except.ok _ => Except.error PyExc.typeError

/-- An HTTP request as handed to `session.request`: the method, the path
relative to `https://pool.aseko.com/api/v2/`, the optional body, and the
optional header dictionary. -/
structure HttpRequest where
  method : String
  path : String
  data : Option Json
  headers : Option (List (String × String))

/-- An HTTP response: status code and (already parsed) JSON body. -/
structure Response where
  status : Nat
  body : Json

/-- The decoded (unverified) JWT payload; only the `exp` claim is ever
read, so only it is modelled.  `exp none` is a payload without an `exp`
key. -/
structure JwtPayload where
  exp : Option Int
deriving DecidableEq, Repr

/-- The environment of one call: the current clock value `time.time()`,
the unverified JWT decoder `jwt.decode` (which may raise), and the HTTP
transport `session.request` (which may raise an `aiohttp.ClientError`,
modelled as a `String` describing the error). -/
structure Env where
  now : Int
  decode : String → Except String JwtPayload
  transport : HttpRequest → Except String Response

/-- The mutable fields of a `MobileAccount`. -/
structure AccountState where
  username : Option String
  password : Option String
  access_token : Option String
  refresh_token : Option String
deriving DecidableEq, Repr

/-- Convert an optional string to the JSON value Python would serialise. -/
def jsonOfOptStr : Option String → Json
  | none => Json.null
  | some s => Json.str s

namespace MobileAccount

/-- The request `MobileAccount._request` builds: URL from the fixed base and
`path`, and headers `None` when no access token is held, else the single
`access-token` header. -/
def mkRequest (st : AccountState) (method path : String) (data : Option Json) :
    HttpRequest :=
  { method := method
    path := path
    data := data
    headers :=
      match st.access_token with
      | none => none
      | some t => some [("access-token", t)] }

/-- The part of `MobileAccount._request` after the refresh guard: issue the
request through the transport and map the response status.  A transport
exception propagates as `clientError`; a 401 status raises
`InvalidAuthCredentials`; `resp.raise_for_status()` raises for any other
status at least 400, and that `ClientError` is caught and re-raised as
`APIUnavailable`; otherwise the raw response is returned. -/
def rawRequest (env : Env) (st : AccountState) (method path : String)
    (data : Option Json) : Except PyExc Response :=
  match env.transport (mkRequest st method path data) with
  | Except.error e => Except.error (PyExc.clientError e)
  | Except.ok resp =>
    if resp.status = 401 then Except.error PyExc.invalidAuthCredentials
    else if 400 ≤ resp.status then Except.error PyExc.apiUnavailable
    else Except.ok resp

/-- `MobileAccount._is_access_token_valid`: `False` when no access token is
held; otherwise decode the token without verifying the signature (a decode
failure propagates) and report whether the payload has an `exp` claim with
the current time strictly before it. -/
def isAccessTokenValid (env : Env) (st : AccountState) : Except String Bool :=
  match st.access_token with
  | some tok =>
    match env.decode tok with
    | Except.error e => Except.error e
    | Except.ok payload =>
      Except.ok
        (match payload.exp with
         | none => false
         | some e => decide (env.now < e))
  | none => Except.ok false

/-- `MobileAccount._request` specialised to `refresh=True` (the only way
`refresh()` calls it): the guard short-circuits on `not refresh`, so the
request is issued directly. -/
def requestTrue (env : Env) (st : AccountState) (method path : String)
    (data : Option Json) :
    AccountState × List HttpRequest × Except PyExc Response :=
  (st, [mkRequest st method path data], rawRequest env st method path data)

/-- `MobileAccount.refresh`: invalidate the current access token, post the
refresh token through `self._request(..., refresh=True)`, and on success
store both tokens from the response body, `accessToken` first. -/
def refresh (env : Env) (st : AccountState) :
    AccountState × List HttpRequest × Except PyExc Unit :=
  let st1 : AccountState := { st with access_token := none }
  match requestTrue env st1 "post" "refresh"
      (some (Json.obj [("refreshToken", jsonOfOptStr st1.refresh_token)])) with
  | (st2, trace, Except.error e) => (st2, trace, Except.error e)
  | (st2, trace, Except.ok resp) =>
    match getStrField resp.body "accessToken" with
    | Except.error e => (st2, trace, Except.error e)
    | Except.ok a =>
      let st3 : AccountState := { st2 with access_token := some a }
      match getStrField resp.body "refreshToken" with
      | Except.error e => (st3, trace, Except.error e)
      | Except.ok r =>
        ({ st3 with refresh_token := some r }, trace, Except.ok ())

/-- `MobileAccount._request`: when `refresh` is true the guard
short-circuits and the request is issued directly (`requestTrue`);
otherwise the guard first runs the validity check (whose decode failure
propagates) and, if the token is invalid and a refresh token is present,
performs `self.refresh()` before issuing the request; the request is then
issued against the (possibly updated) state. -/
def request (env : Env) (st : AccountState) (method path : String)
    (data : Option Json) (refresh : Bool) :
    AccountState × List HttpRequest × Except PyExc Response :=
  if refresh then
    requestTrue env st method path data
  else
    match isAccessTokenValid env st with
    | Except.error e => (st, [], Except.error (PyExc.decodeError e))
    | Except.ok valid =>
      if valid = false ∧ st.refresh_token ≠ none then
        match MobileAccount.refresh env st with
        | (st1, trace1, Except.error e) => (st1, trace1, Except.error e)
        | (st1, trace1, Except.ok _) =>
          (st1, trace1 ++ [mkRequest st1 method path data],
           rawRequest env st1 method path data)
      else
        (st, [mkRequest st method path data], rawRequest env st method path data)

/-- `MobileAccount.login`: post the credentials (with an empty
`firebaseId`) and on success store both tokens from the response body,
`accessToken` first. -/
def login (env : Env) (st : AccountState) :
    AccountState × List HttpRequest × Except PyExc Unit :=
  match request env st "post" "login"
      (some (Json.obj
        [("username", jsonOfOptStr st.username),
         ("password", jsonOfOptStr st.password),
         ("firebaseId", Json.str "")]))
      false with
  | (st1, trace, Except.error e) => (st1, trace, Except.error e)
  | (st1, trace, Except.ok resp) =>
    match getStrField resp.body "accessToken" with
    | Except.error e => (st1, trace, Except.error e)
    | Except.ok a =>
      let st2 : AccountState := { st1 with access_token := some a }
      match getStrField resp.body "refreshToken" with
      | Except.error e => (st2, trace, Except.error e)
      | Except.ok r =>
        ({ st2 with refresh_token := some r }, trace, Except.ok ())

/-- `MobileAccount.logout`: post to the logout endpoint and discard the
response; the token fields are not touched. -/
def logout (env : Env) (st : AccountState) :
    AccountState × List HttpRequest × Except PyExc Unit :=
  match request env st "post" "logout" none false with
  | (st1, trace, Except.error e) => (st1, trace, Except.error e)
  | (st1, trace, Except.ok _) => (st1, trace, Except.ok ())

end MobileAccount

/-- Modelled from the spec: the `Unit` record of `aioaseko/unit.py` (the
file itself is not in the sources; the spec describes it as "serial number
(integer), type, optional name, optional notes, timezone, online flag,
last-data timestamp, error flag").  The back-reference to the account is
dropped: the record "owns no network capability itself". -/
structure AUnit where
  serial_number : Int
  type : String
  name : Option String
  notes : Option String
  timezone : String
  is_online : Bool
  date_last_data : String
  has_error : Bool
deriving DecidableEq, Repr

namespace MobileAccount

/-- One element of the `items` array mapped into a `Unit`, with the
argument evaluation order of the `Unit(...)` call in `get_units`:
`int(item["serialNumber"])`, `item["type"]`, `item.get("name")`,
`item.get("notes")`, `item["timezone"]`, `item["isOnline"]`,
`item["dateLastData"]`, `item["hasError"]`. -/
def parseUnit (item : Json) : Except PyExc AUnit := do
  let sn ← pyInt (← jsonLookup item "serialNumber")
  let ty ← getStrField item "type"
  let name ← getOptStr item "name"
  let notes ← getOptStr item "notes"
  let tz ← getStrField item "timezone"
  let online ← getBoolField item "isOnline"
  let last ← getStrField item "dateLastData"
  let err ← getBoolField item "hasError"
  Except.ok
    { serial_number := sn, type := ty, name := name, notes := notes
      timezone := tz, is_online := online, date_last_data := last
      has_error := err }

/-- `MobileAccount.get_units`: authenticated GET of `units`, then map each
element of `data["items"]` to a `Unit`. -/
def getUnits (env : Env) (st : AccountState) :
    AccountState × List HttpRequest × Except PyExc (List AUnit) :=
  match request env st "get" "units" none false with
  | (st1, trace, Except.error e) => (st1, trace, Except.error e)
  | (st1, trace, Except.ok resp) =>
    match jsonLookup resp.body "items" with
    | Except.error e => (st1, trace, Except.error e)
    | Except.ok (Json.arr items) => (st1, trace, items.mapM parseUnit)
    | Except.ok _ => (st1, trace, Except.error PyExc.typeError)

end MobileAccount

end Aseko

namespace Aseko

open MobileAccount

/-! ### Derived notions used by the statements -/

/-- The request `refresh()` issues: built from the state whose access token
was just cleared, posting the stored refresh token. -/
def refreshRequest (st : AccountState) : HttpRequest :=
  mkRequest { st with access_token := none } "post" "refresh"
    (some (Json.obj [("refreshToken", jsonOfOptStr st.refresh_token)]))

/-- The three public operations that go through the dispatch pipeline with
`refresh=False`. -/
inductive AuthOp where
  | login : AuthOp
  | logout : AuthOp
  | getUnits : AuthOp
deriving DecidableEq, Repr

/-- The path each non-refresh operation requests. -/
def opPath : AuthOp → String
  | AuthOp.login => "login"
  | AuthOp.logout => "logout"
  | AuthOp.getUnits => "units"

/-- The HTTP method each non-refresh operation uses. -/
def opMethod : AuthOp → String
  | AuthOp.login => "post"
  | AuthOp.logout => "post"
  | AuthOp.getUnits => "get"

/-- The body each non-refresh operation sends. -/
def opData : AuthOp → AccountState → Option Json
  | AuthOp.login, st =>
    some (Json.obj
      [("username", jsonOfOptStr st.username),
       ("password", jsonOfOptStr st.password),
       ("firebaseId", Json.str "")])
  | AuthOp.logout, _ => none
  | AuthOp.getUnits, _ => none

/-- The ordered list of HTTP requests one operation issues. -/
def opTrace (o : AuthOp) (env : Env) (st : AccountState) : List HttpRequest :=
  match o with
  | AuthOp.login => (MobileAccount.login env st).2.1
  | AuthOp.logout => (MobileAccount.logout env st).2.1
  | AuthOp.getUnits => (MobileAccount.getUnits env st).2.1

/-! ### Concrete stub environments and states, for instantiations -/

/-- A canned decoder: token `"good"` expires at 100, `"stale"` at 10,
`"noexp"` has no `exp` claim, anything else fails to decode. -/
def decodeW : String → Except String JwtPayload := fun t =>
  if t = "good" then Except.ok { exp := some 100 }
  else if t = "stale" then Except.ok { exp := some 10 }
  else if t = "noexp" then Except.ok { exp := none }
  else Except.error "DecodeError"

/-- A canned transport: every endpoint answers 200 with a plausible body. -/
def bodyTokensW (a r : String) : Json :=
  Json.obj [("accessToken", Json.str a), ("refreshToken", Json.str r)]

/-- The canned single-unit `units` body of the spec example. -/
def bodyUnitsW : Json :=
  Json.obj
    [("items", Json.arr
      [Json.obj
        [("serialNumber", Json.str "123"), ("type", Json.str "X"),
         ("timezone", Json.str "UTC"), ("isOnline", Json.bool true),
         ("dateLastData", Json.str "..."), ("hasError", Json.bool false)]])]

def transportW : HttpRequest → Except String Response := fun req =>
  if req.path = "refresh" then Except.ok ⟨200, bodyTokensW "newA" "newR"⟩
  else if req.path = "login" then Except.ok ⟨200, bodyTokensW "la" "lr"⟩
  else if req.path = "units" then Except.ok ⟨200, bodyUnitsW⟩
  else Except.ok ⟨200, Json.null⟩

/-- The stub environment with the clock at 50. -/
def envW : Env := { now := 50, decode := decodeW, transport := transportW }

/-- A transport that answers every request with a given bare status. -/
def transportStatus (s : Nat) : HttpRequest → Except String Response :=
  fun _ => Except.ok ⟨s, Json.null⟩

/-- The stub environment answering every request with a given status. -/
def envStatus (s : Nat) : Env :=
  { now := 50, decode := decodeW, transport := transportStatus s }

/-- A transport that raises a connection error on every request. -/
def transportDown : HttpRequest → Except String Response :=
  fun _ => Except.error "ConnectionError"

/-- The stub environment whose transport always raises. -/
def envDown : Env := { now := 50, decode := decodeW, transport := transportDown }

/-- An account with no tokens at all. -/
def stNoTok : AccountState :=
  { username := some "u", password := some "p",
    access_token := none, refresh_token := none }

/-- An account holding a valid access token and a refresh token. -/
def stValidTok : AccountState :=
  { username := some "u", password := some "p",
    access_token := some "good", refresh_token := some "rt" }

/-- An account holding an expired access token and a refresh token. -/
def stStaleTok : AccountState :=
  { username := some "u", password := some "p",
    access_token := some "stale", refresh_token := some "rt" }

/-- An account holding an undecodable access token and a refresh token. -/
def stBadTok : AccountState :=
  { username := some "u", password := some "p",
    access_token := some "garbage", refresh_token := some "rt" }

/-! ### Helper lemmas -/

theorem opTrace_eq (o : AuthOp) (env : Env) (st : AccountState) :
    opTrace o env st =
      (request env st (opMethod o) (opPath o) (opData o st) false).2.1 := by
  cases o
  case login =>
    simp only [opTrace, MobileAccount.login, opMethod, opPath, opData]
    rcases hreq : request env st "post" "login"
      (some (Json.obj
        [("username", jsonOfOptStr st.username),
         ("password", jsonOfOptStr st.password),
         ("firebaseId", Json.str "")])) false with ⟨st1, tr, r⟩
    rcases r with e | resp
    · rfl
    · rcases h2 : getStrField resp.body "accessToken" with e | a
      · simp [h2]
      · rcases h3 : getStrField resp.body "refreshToken" with e | r2 <;>
          simp [h2, h3]
  case logout =>
    simp only [opTrace, MobileAccount.logout, opMethod, opPath, opData]
    rcases hreq : request env st "post" "logout" none false with ⟨st1, tr, r⟩
    rcases r with e | resp <;> rfl
  case getUnits =>
    simp only [opTrace, MobileAccount.getUnits, opMethod, opPath, opData]
    rcases hreq : request env st "get" "units" none false with ⟨st1, tr, r⟩
    rcases r with e | resp
    · rfl
    · rcases h2 : jsonLookup resp.body "items" with e | v
      · simp [h2]
      · cases v <;> simp [h2]

theorem request_noguard (env : Env) (st : AccountState) (m p : String)
    (d : Option Json) (r : Bool)
    (h : r = true ∨ isAccessTokenValid env st = Except.ok true ∨
      (isAccessTokenValid env st = Except.ok false ∧ st.refresh_token = none)) :
    request env st m p d r =
      (st, [mkRequest st m p d], rawRequest env st m p d) := by
  cases hr : r
  · rcases h with h | h | ⟨hv, hn⟩
    · simp [h] at hr
    · simp [request, h]
    · simp [request, hv, hn]
  · rfl

theorem refresh_trace (env : Env) (st : AccountState) :
    (MobileAccount.refresh env st).2.1 = [refreshRequest st] := by
  simp only [MobileAccount.refresh, requestTrue, refreshRequest]
  rcases h1 : rawRequest env { st with access_token := none } "post" "refresh"
      (some (Json.obj [("refreshToken", jsonOfOptStr st.refresh_token)]))
    with e | resp
  · simp [h1]
  · rcases h2 : getStrField resp.body "accessToken" with e | a
    · simp [h1, h2]
    · rcases h3 : getStrField resp.body "refreshToken" with e | r2 <;>
        simp [h1, h2, h3]

theorem jsonLookup_error (j : Json) (k : String) (e : PyExc)
    (h : jsonLookup j k = Except.error e) : e = PyExc.keyError k := by
  cases j <;> simp only [jsonLookup] at h
  case obj fields =>
    rcases h1 : fields.lookup k with _ | v <;> rw [h1] at h <;> simp at h
    exact h.symm
  all_goals simp at h; exact h.symm

theorem getStrField_ok (j : Json) (k : String) (a : String)
    (h : getStrField j k = Except.ok a) :
    jsonLookup j k = Except.ok (Json.str a) := by
  unfold getStrField at h
  rcases h1 : jsonLookup j k with e | v <;> rw [h1] at h
  · simp at h
  · cases v <;> simp [asStr] at h
    subst h
    rfl

theorem getStrField_error_shape (j : Json) (k : String) (e : PyExc)
    (h : getStrField j k = Except.error e) :
    e = PyExc.keyError k ∨ e = PyExc.typeError := by
  unfold getStrField at h
  rcases h1 : jsonLookup j k with e2 | v <;> rw [h1] at h
  · simp at h
    subst h
    exact Or.inl (jsonLookup_error j k e2 h1)
  · cases v <;> simp [asStr] at h <;> exact Or.inr h.symm

/-! ### Claim theorems -/

/-- C2: for every operation routed through the request pipeline, when no
pre-request refresh intervenes: a 401 response makes the call fail with
`InvalidAuthCredentials` regardless of body content, any other error status
(at least 400) makes it fail with `APIUnavailable`, and a success status
returns the raw response for the caller to parse. -/
theorem C2_status_mapping (env : Env) (st : AccountState) (m p : String)
    (d : Option Json) (r : Bool) (resp : Response)
    (hg : r = true ∨ isAccessTokenValid env st = Except.ok true ∨
      (isAccessTokenValid env st = Except.ok false ∧ st.refresh_token = none))
    (ht : env.transport (mkRequest st m p d) = Except.ok resp) :
    (resp.status = 401 →
      (request env st m p d r).2.2 =
        Except.error PyExc.invalidAuthCredentials) ∧
    (¬ resp.status = 401 → 400 ≤ resp.status →
      (request env st m p d r).2.2 = Except.error PyExc.apiUnavailable) ∧
    (resp.status < 400 →
      (request env st m p d r).2.2 = Except.ok resp) := by
  rw [request_noguard env st m p d r hg]
  refine ⟨?_, ?_, ?_⟩
  · intro h1
    simp [rawRequest, ht, h1]
  · intro h1 h2
    simp [rawRequest, ht, h1, h2]
  · intro h1
    have h2 : ¬ resp.status = 401 := by omega
    have h3 : ¬ 400 ≤ resp.status := by omega
    simp [rawRequest, ht, h2, h3]

/-- Instantiation of the status mapping: a 401 answer to `logout` fails
with `InvalidAuthCredentials` and a 500 answer fails with
`APIUnavailable`. -/
theorem C2_status_mapping_witness :
    (request (envStatus 401) stValidTok "post" "logout" none false).2.2 =
      Except.error PyExc.invalidAuthCredentials ∧
    (request (envStatus 500) stValidTok "post" "logout" none false).2.2 =
      Except.error PyExc.apiUnavailable := by
  constructor
  · exact (C2_status_mapping (envStatus 401) stValidTok "post" "logout" none
      false ⟨401, Json.null⟩ (Or.inr (Or.inl rfl)) rfl).1 rfl
  · exact (C2_status_mapping (envStatus 500) stValidTok "post" "logout" none
      false ⟨500, Json.null⟩ (Or.inr (Or.inl rfl)) rfl).2.1
      (by decide) (by decide)

/-- C4: the token-validity check returns true exactly when the access token
is present, its unverified decoded payload has an `exp` claim, and the
current time is strictly before that expiry; with no access token it
returns false. -/
theorem C4_token_validity (env : Env) (st : AccountState) :
    (isAccessTokenValid env st = Except.ok true ↔
      ∃ tok payload e, st.access_token = some tok ∧
        env.decode tok = Except.ok payload ∧ payload.exp = some e ∧
        env.now < e) ∧
    (st.access_token = none → isAccessTokenValid env st = Except.ok false) := by
  constructor
  · constructor
    · intro h
      rcases ht : st.access_token with _ | tok
      · simp [isAccessTokenValid, ht] at h
      · rcases hd : env.decode tok with e2 | payload
        · simp [isAccessTokenValid, ht, hd] at h
        · rcases he : payload.exp with _ | e2
          · simp [isAccessTokenValid, ht, hd, he] at h
          · simp [isAccessTokenValid, ht, hd, he] at h
            exact ⟨tok, payload, e2, rfl, hd, he, h⟩
    · rintro ⟨tok, payload, e2, ht, hd, he, hlt⟩
      simp [isAccessTokenValid, ht, hd, he, hlt]
  · intro h
    simp [isAccessTokenValid, h]

/-- Instantiation of the validity check: a token expiring at 100 is valid
at time 50, and an account without an access token is invalid. -/
theorem C4_token_validity_witness :
    isAccessTokenValid envW stValidTok = Except.ok true ∧
    isAccessTokenValid envW stNoTok = Except.ok false := by
  constructor
  · exact (C4_token_validity envW stValidTok).1.mpr
      ⟨"good", ⟨some 100⟩, 100, rfl, rfl, rfl, by decide⟩
  · exact (C4_token_validity envW stNoTok).2 rfl

/-- C6: every request attaches the `access-token` header exactly when an
access token is currently set and omits the header entirely otherwise, and
`refresh()` clears the local access token before issuing its network
request, so the refresh request itself carries no `access-token` header. -/
theorem C6_refresh_header (env : Env) (st : AccountState)
    (m p : String) (d : Option Json) :
    ((mkRequest st m p d).headers = none ↔ st.access_token = none) ∧
    (∀ t, st.access_token = some t →
      (mkRequest st m p d).headers = some [("access-token", t)]) ∧
    (∀ req ∈ (MobileAccount.refresh env st).2.1, req.headers = none) := by
  refine ⟨?_, ?_, ?_⟩
  · cases h : st.access_token <;> simp [mkRequest, h]
  · intro t h
    simp [mkRequest, h]
  · intro req hreq
    rw [refresh_trace] at hreq
    simp at hreq
    subst hreq
    rfl

/-- Instantiation of the header rule: with a token set the header is
attached, and the refresh request of an account holding a token has no
header. -/
theorem C6_refresh_header_witness :
    (mkRequest stValidTok "get" "units" none).headers =
      some [("access-token", "good")] ∧
    (refreshRequest stValidTok).headers = none := by
  constructor
  · exact (C6_refresh_header envW stValidTok "get" "units" none).2.1 "good" rfl
  · exact (C6_refresh_header envW stValidTok "get" "units" none).2.2
      (refreshRequest stValidTok) (by rw [refresh_trace]; simp)

theorem request_guard (env : Env) (st : AccountState) (m p : String)
    (d : Option Json) (hv : isAccessTokenValid env st = Except.ok false)
    (hrt : st.refresh_token ≠ none) :
    request env st m p d false =
      match MobileAccount.refresh env st with
      | (st1, trace1, Except.error e) => (st1, trace1, Except.error e)
      | (st1, trace1, Except.ok _) =>
        (st1, trace1 ++ [mkRequest st1 m p d], rawRequest env st1 m p d) := by
  simp [request, hv, hrt]

theorem request_decode_error (env : Env) (st : AccountState) (m p : String)
    (d : Option Json) (err : String)
    (hv : isAccessTokenValid env st = Except.error err) :
    request env st m p d false = (st, [], Except.error (PyExc.decodeError err)) := by
  simp [request, hv]

/-- C1: for each non-refresh operation of the dispatch pipeline (login,
logout, get_units): with a valid access token no refresh request is ever
issued; with an invalid access token (absent, expired, or without an `exp`
claim) and a refresh token present, exactly one refresh request is issued,
it is the first request of the call, and every later request of the call is
the operation's own. -/
theorem C1_refresh_guard (o : AuthOp) (env : Env) (st : AccountState) :
    (isAccessTokenValid env st = Except.ok true →
      ∀ q ∈ opTrace o env st, q.path ≠ "refresh") ∧
    (isAccessTokenValid env st = Except.ok false → st.refresh_token ≠ none →
      (opTrace o env st).countP (fun q => q.path == "refresh") = 1 ∧
      (opTrace o env st).head? = some (refreshRequest st) ∧
      ∀ q ∈ (opTrace o env st).tail, q.path = opPath o) := by
  rw [opTrace_eq]
  constructor
  · intro hv q hq
    rw [request_noguard env st _ _ _ false (Or.inr (Or.inl hv))] at hq
    simp at hq
    subst hq
    cases o <;> simp [mkRequest, opPath]
  · intro hv hrt
    rw [request_guard env st _ _ _ hv hrt]
    rcases h1 : MobileAccount.refresh env st with ⟨st1, trace1, r1⟩
    have htr : trace1 = [refreshRequest st] := by
      have h2 := refresh_trace env st
      rw [h1] at h2
      exact h2
    subst htr
    rcases r1 with e | u
    · refine ⟨?_, by simp, by simp⟩
      simp [List.countP_cons, refreshRequest, mkRequest]
    · refine ⟨?_, by simp, ?_⟩
      · cases o <;>
          simp [List.countP_cons, refreshRequest, mkRequest, opPath]
      · intro q hq
        simp at hq
        subst hq
        simp [mkRequest]

/-- Instantiation of the refresh guard: a stale token forces exactly one
refresh, issued first and with the refresh request of the account. -/
theorem C1_refresh_guard_witness :
    (opTrace AuthOp.getUnits envW stStaleTok).countP
      (fun q => q.path == "refresh") = 1 ∧
    (opTrace AuthOp.getUnits envW stStaleTok).head? =
      some (refreshRequest stStaleTok) :=
  ⟨((C1_refresh_guard AuthOp.getUnits envW stStaleTok).2 rfl
      (by simp [stStaleTok])).1,
   ((C1_refresh_guard AuthOp.getUnits envW stStaleTok).2 rfl
      (by simp [stStaleTok])).2.1⟩

/-- C7: with a present but undecodable access token, the validity check
raises the decode error as-is, and every operation that runs the guard
propagates that decode error — it is neither re-mapped to an API error nor
treated as a valid token — and issues no request at all. -/
theorem C7_decode_error (env : Env) (st : AccountState) (tok err : String)
    (ht : st.access_token = some tok)
    (hd : env.decode tok = Except.error err) :
    isAccessTokenValid env st = Except.error err ∧
    (MobileAccount.login env st).2.2 = Except.error (PyExc.decodeError err) ∧
    (MobileAccount.logout env st).2.2 = Except.error (PyExc.decodeError err) ∧
    (MobileAccount.getUnits env st).2.2 =
      Except.error (PyExc.decodeError err) ∧
    ∀ o : AuthOp, opTrace o env st = [] := by
  have hv : isAccessTokenValid env st = Except.error err := by
    simp [isAccessTokenValid, ht, hd]
  refine ⟨hv, ?_, ?_, ?_, ?_⟩
  · unfold MobileAccount.login
    rw [request_decode_error env st _ _ _ err hv]
  · unfold MobileAccount.logout
    rw [request_decode_error env st _ _ _ err hv]
  · unfold MobileAccount.getUnits
    rw [request_decode_error env st _ _ _ err hv]
  · intro o
    rw [opTrace_eq, request_decode_error env st _ _ _ err hv]

/-- Instantiation of the decode-error path: an undecodable token makes the
check raise and `get_units` propagate the decode error. -/
theorem C7_decode_error_witness :
    isAccessTokenValid envW stBadTok = Except.error "DecodeError" ∧
    (MobileAccount.getUnits envW stBadTok).2.2 =
      Except.error (PyExc.decodeError "DecodeError") :=
  ⟨(C7_decode_error envW stBadTok "garbage" "DecodeError" rfl rfl).1,
   (C7_decode_error envW stBadTok "garbage" "DecodeError" rfl rfl).2.2.2.1⟩

/-- C8: when the pre-request guard performs no refresh, `logout` leaves the
account's accessToken and refreshToken fields unchanged — it does not clear
local token state (this holds whether or not the request itself succeeds,
so in particular for a successful logout). -/
theorem C8_logout_keeps_tokens (env : Env) (st : AccountState)
    (hg : isAccessTokenValid env st = Except.ok true ∨
      (isAccessTokenValid env st = Except.ok false ∧
        st.refresh_token = none)) :
    (MobileAccount.logout env st).1.access_token = st.access_token ∧
    (MobileAccount.logout env st).1.refresh_token = st.refresh_token := by
  have hst : (MobileAccount.logout env st).1 = st := by
    unfold MobileAccount.logout
    rw [request_noguard env st "post" "logout" none false (Or.inr hg)]
    rcases h2 : rawRequest env st "post" "logout" none with e | resp <;>
      simp [h2]
  rw [hst]
  exact ⟨rfl, rfl⟩

/-- Instantiation: logging out with a valid token keeps both tokens. -/
theorem C8_logout_keeps_tokens_witness :
    (MobileAccount.logout envW stValidTok).1.access_token = some "good" ∧
    (MobileAccount.logout envW stValidTok).1.refresh_token = some "rt" :=
  C8_logout_keeps_tokens envW stValidTok (Or.inl rfl)

/-- C3 as stated is false: the transport exception raised while issuing the
request is not re-mapped.  With a transport that raises a connection error,
`login` on a token-free account propagates the client error itself rather
than failing with `APIUnavailable`. -/
theorem C3_counterexample :
    (MobileAccount.login envDown stNoTok).2.2 =
      Except.error (PyExc.clientError "ConnectionError") ∧
    Except.error (PyExc.clientError "ConnectionError") ≠
      (Except.error PyExc.apiUnavailable : Except PyExc Unit) := by
  constructor
  · rfl
  · simp

/-- C3 amended: only the error raised by the response status check is
caught and re-mapped to `APIUnavailable`; a transport exception raised
while issuing the HTTP request itself propagates to the caller as the
underlying client error. -/
theorem C3_transport_error_mapping (env : Env) (st : AccountState)
    (m p : String) (d : Option Json) :
    (∀ e, env.transport (mkRequest st m p d) = Except.error e →
      rawRequest env st m p d = Except.error (PyExc.clientError e)) ∧
    (∀ resp, env.transport (mkRequest st m p d) = Except.ok resp →
      ¬ resp.status = 401 → 400 ≤ resp.status →
      rawRequest env st m p d = Except.error PyExc.apiUnavailable) := by
  constructor
  · intro e he
    simp [rawRequest, he]
  · intro resp hre h1 h2
    simp [rawRequest, hre, h1, h2]

/-- Instantiation of the amended mapping: a raising transport surfaces the
client error unmapped. -/
theorem C3_transport_error_mapping_witness :
    rawRequest envDown stNoTok "post" "login" none =
      Except.error (PyExc.clientError "ConnectionError") :=
  (C3_transport_error_mapping envDown stNoTok "post" "login" none).1
    "ConnectionError" rfl

theorem rawRequest_ok_status (env : Env) (st : AccountState) (m p : String)
    (d : Option Json) (resp : Response)
    (ht : env.transport (mkRequest st m p d) = Except.ok resp)
    (hs : resp.status < 400) :
    rawRequest env st m p d = Except.ok resp := by
  have h1 : ¬ resp.status = 401 := by omega
  have h2 : ¬ 400 ≤ resp.status := by omega
  simp [rawRequest, ht, h1, h2]

/-- C5: after a successful `login()` or `refresh()` (the call's own request
answered with a success status), the account's accessToken and refreshToken
fields equal the `accessToken` and `refreshToken` values of the JSON
response body; for login this is stated for runs in which the pre-request
guard performs no refresh. -/
theorem C5_tokens_from_body (env : Env) (st : AccountState) (resp : Response)
    (a r : String)
    (ha : jsonLookup resp.body "accessToken" = Except.ok (Json.str a))
    (hb : jsonLookup resp.body "refreshToken" = Except.ok (Json.str r)) :
    (env.transport (mkRequest st "post" "login"
        (some (Json.obj
          [("username", jsonOfOptStr st.username),
           ("password", jsonOfOptStr st.password),
           ("firebaseId", Json.str "")]))) = Except.ok resp →
      resp.status < 400 →
      (isAccessTokenValid env st = Except.ok true ∨
        (isAccessTokenValid env st = Except.ok false ∧
          st.refresh_token = none)) →
      MobileAccount.login env st =
        ({ st with access_token := some a, refresh_token := some r },
         [mkRequest st "post" "login"
           (some (Json.obj
             [("username", jsonOfOptStr st.username),
              ("password", jsonOfOptStr st.password),
              ("firebaseId", Json.str "")]))],
         Except.ok ())) ∧
    (env.transport (refreshRequest st) = Except.ok resp →
      resp.status < 400 →
      MobileAccount.refresh env st =
        ({ st with access_token := some a, refresh_token := some r },
         [refreshRequest st], Except.ok ())) := by
  constructor
  · intro ht hs hg
    unfold MobileAccount.login
    rw [request_noguard env st _ _ _ false (Or.inr hg)]
    rw [rawRequest_ok_status env st _ _ _ resp ht hs]
    simp [getStrField, ha, hb, asStr]
  · intro ht hs
    unfold MobileAccount.refresh
    simp only [requestTrue]
    have ht2 : env.transport (mkRequest { st with access_token := none }
        "post" "refresh"
        (some (Json.obj [("refreshToken", jsonOfOptStr st.refresh_token)]))) =
        Except.ok resp := ht
    rw [rawRequest_ok_status env _ _ _ _ resp ht2 hs]
    simp [getStrField, ha, hb, asStr, refreshRequest, mkRequest]

/-- Instantiation: a refresh of the stale-token account against the canned
transport stores exactly the body's token pair. -/
theorem C5_tokens_from_body_witness :
    MobileAccount.refresh envW stStaleTok =
      ({ stStaleTok with
          access_token := some "newA"
          refresh_token := some "newR" },
       [refreshRequest stStaleTok], Except.ok ()) :=
  (C5_tokens_from_body envW stStaleTok ⟨200, bodyTokensW "newA" "newR"⟩
    "newA" "newR" rfl rfl).2 rfl (by decide)


theorem refresh_eq (env : Env) (st : AccountState) :
    MobileAccount.refresh env st =
      match rawRequest env { st with access_token := none } "post" "refresh"
          (some (Json.obj
            [("refreshToken", jsonOfOptStr st.refresh_token)])) with
      | Except.error e =>
        ({ st with access_token := none }, [refreshRequest st],
         Except.error e)
      | Except.ok resp =>
        match getStrField resp.body "accessToken" with
        | Except.error e =>
          ({ st with access_token := none }, [refreshRequest st],
           Except.error e)
        | Except.ok a =>
          match getStrField resp.body "refreshToken" with
          | Except.error e =>
            ({ st with access_token := some a }, [refreshRequest st],
             Except.error e)
          | Except.ok r =>
            ({ st with access_token := some a, refresh_token := some r },
             [refreshRequest st], Except.ok ()) := by
  rcases h1 : rawRequest env { st with access_token := none } "post" "refresh"
      (some (Json.obj [("refreshToken", jsonOfOptStr st.refresh_token)]))
    with e | resp
  · simp [MobileAccount.refresh, requestTrue, h1, refreshRequest]
  · rcases h2 : getStrField resp.body "accessToken" with e | a
    · simp [MobileAccount.refresh, requestTrue, h1, h2, refreshRequest]
    · rcases h3 : getStrField resp.body "refreshToken" with e | r2 <;>
        simp [MobileAccount.refresh, requestTrue, h1, h2, h3, refreshRequest]

/-- C9: when the `units` request succeeds, `get_units` maps each element of
the response's `items` array through the Unit parser (serial number coerced
to an integer via `int(...)`, name and notes read optionally with `.get`);
in particular the parser sends the spec's single example item to exactly
one Unit with integer serial number 123 and name and notes absent. -/
theorem C9_get_units_mapping (env : Env) (st : AccountState)
    (resp : Response) (items : List Json)
    (hg : isAccessTokenValid env st = Except.ok true ∨
      (isAccessTokenValid env st = Except.ok false ∧
        st.refresh_token = none))
    (ht : env.transport (mkRequest st "get" "units" none) = Except.ok resp)
    (hs : resp.status < 400)
    (hi : jsonLookup resp.body "items" = Except.ok (Json.arr items)) :
    (MobileAccount.getUnits env st).2.2 = items.mapM parseUnit ∧
    parseUnit (Json.obj
      [("serialNumber", Json.str "123"), ("type", Json.str "X"),
       ("timezone", Json.str "UTC"), ("isOnline", Json.bool true),
       ("dateLastData", Json.str "..."), ("hasError", Json.bool false)]) =
      Except.ok
        { serial_number := 123, type := "X", name := none, notes := none,
          timezone := "UTC", is_online := true, date_last_data := "...",
          has_error := false } := by
  constructor
  · unfold MobileAccount.getUnits
    rw [request_noguard env st "get" "units" none false (Or.inr hg)]
    rw [rawRequest_ok_status env st _ _ _ resp ht hs]
    simp [hi]
  · rfl

/-- Instantiation: against the canned transport, `get_units` of the
valid-token account returns exactly the one example Unit. -/
theorem C9_get_units_mapping_witness :
    (MobileAccount.getUnits envW stValidTok).2.2 =
      Except.ok
        [{ serial_number := 123, type := "X", name := none, notes := none,
           timezone := "UTC", is_online := true, date_last_data := "...",
           has_error := false }] := by
  have h := (C9_get_units_mapping envW stValidTok ⟨200, bodyUnitsW⟩
    [Json.obj
      [("serialNumber", Json.str "123"), ("type", Json.str "X"),
       ("timezone", Json.str "UTC"), ("isOnline", Json.bool true),
       ("dateLastData", Json.str "..."), ("hasError", Json.bool false)]]
    (Or.inl rfl) rfl (by decide) rfl).1
  rw [h]
  rfl

/-- C10: when `refresh()` fails with the auth error, another HTTP error, or
a transport failure, the account is left with its access token `None` — the
token cleared at the start of refresh is not restored on the error path —
while the refresh token field is unchanged. -/
theorem C10_failed_refresh_state (env : Env) (st st1 : AccountState)
    (tr : List HttpRequest) (e : PyExc)
    (h : MobileAccount.refresh env st = (st1, tr, Except.error e))
    (he : e = PyExc.invalidAuthCredentials ∨ e = PyExc.apiUnavailable ∨
      ∃ s, e = PyExc.clientError s) :
    st1.access_token = none ∧ st1.refresh_token = st.refresh_token := by
  rw [refresh_eq env st] at h
  rcases h2 : rawRequest env { st with access_token := none } "post" "refresh"
      (some (Json.obj [("refreshToken", jsonOfOptStr st.refresh_token)]))
    with e2 | resp
  · rw [h2] at h
    simp only [Prod.mk.injEq] at h
    obtain ⟨hst, -, -⟩ := h
    rw [← hst]
    exact ⟨rfl, rfl⟩
  · rw [h2] at h
    simp only [] at h
    rcases h3 : getStrField resp.body "accessToken" with e3 | a
    · rw [h3] at h
      simp only [Prod.mk.injEq] at h
      obtain ⟨hst, -, -⟩ := h
      rw [← hst]
      exact ⟨rfl, rfl⟩
    · rw [h3] at h
      rcases h4 : getStrField resp.body "refreshToken" with e4 | r2
      · rw [h4] at h
        simp only [Prod.mk.injEq] at h
        obtain ⟨-, -, her⟩ := h
        rcases getStrField_error_shape _ _ _ h4 with hk | htp <;>
          rcases he with he1 | he1 | ⟨s2, he1⟩ <;> simp_all
      · rw [h4] at h
        simp at h

/-- Instantiation: a refresh answered with 401 leaves the access token
cleared and the refresh token untouched. -/
theorem C10_failed_refresh_state_witness :
    (MobileAccount.refresh (envStatus 401) stStaleTok).1.access_token =
      none ∧
    (MobileAccount.refresh (envStatus 401) stStaleTok).1.refresh_token =
      some "rt" :=
  C10_failed_refresh_state (envStatus 401) stStaleTok
    (MobileAccount.refresh (envStatus 401) stStaleTok).1
    (MobileAccount.refresh (envStatus 401) stStaleTok).2.1
    PyExc.invalidAuthCredentials rfl (Or.inl rfl)
